import Mathlib

/-!
Verification of the nuro provider-resolution engine and completion protocol
layer against its specification.

The definitions below are a shallow embedding of the Go source:

* `resolver/resolver.go` : `ResolveProviderAndModel`, `resolveWithNuroVars`,
  `autoDiscoverProvider`, `inferProviderFromModel`, `defaultModelFor`,
  `firstNonEmpty`, the `providerEnv` map and the `modelHints` table.
* `provider/ollama.go` : `buildOllamaPrompt` and the NDJSON streaming
  decode loop of `(*ollamaProvider).Stream`, plus the non-streaming
  `Complete` decode.
* the OpenAI provider file : `buildUserContent`, `assembleMessages`,
  `modelUsesResponsesAPI`, `responsesSupportsSampling`, the request-body
  construction for the chat-completions and responses APIs, and the two
  SSE streaming decode loops of `(*openAIProvider).Stream`.
* the backend factory `BuildProvider`.

Modelling conventions:

* The process environment is a total function `Env := String → String`;
  `os.Getenv` of an unset variable returns the empty string, which the
  function models directly.
* Errors built with `fmt.Errorf` are modelled as constructors of explicit
  error types carrying the same data that the Go format string interpolates;
  fallible functions return `Except`.
* Go `float64` request parameters are modelled as `ℚ`; only their
  (non)zero-ness is ever observed by the modelled code paths.
* `strings.TrimSpace`, `strings.ToLower`, `strings.ToUpper` and
  `strings.HasPrefix` are modelled by the character-list functions
  `strTrim`, `strLower`, `strUpper` and `strStartsWith` below (ASCII
  behavior; the difference to Go on rare Unicode spaces and letters is not
  observable in any claim).
* The Go `providerEnv` map has nondeterministic iteration order, but every
  use in the source sorts the result (`sort.Strings`); the embedding
  therefore iterates over the alphabetically sorted key list
  `providersSorted`, which yields exactly the sorted outcome of the Go code.
-/

namespace Nuro

/-- Token usage record, mirroring the Go `Usage` struct (int fields). -/
structure Usage where
  promptTokens : Int
  completionTokens : Int
  totalTokens : Int
deriving DecidableEq, Repr

/-- Zero usage, the Go zero value `Usage\x7b\x7d`. -/
def Usage.zero : Usage := ⟨0, 0, 0⟩

/-- Result of provider resolution, mirroring the Go `ProviderResolution`. -/
structure ProviderResolution where
  providerName : String
  model : String
  apiKey : String
  baseURL : String
  keySource : String
deriving DecidableEq, Repr

/-- The process environment: variable name to value, unset reads as "". -/
def Env : Type := String → String

/-- Go `strings.ToLower`, ASCII case (the only case any claim exercises),
implemented over the character list so that it reduces in the kernel. -/
def strLower (s : String) : String := ⟨s.data.map Char.toLower⟩

/-- Go `strings.ToUpper`, ASCII case, over the character list. -/
def strUpper (s : String) : String := ⟨s.data.map Char.toUpper⟩

/-- Go `strings.HasPrefix`, over the character lists. -/
def strStartsWith (s pre : String) : Bool := pre.data.isPrefixOf s.data

/-- Drop the first n characters, used to model `strings.TrimPrefix` at its
two call sites, where the prefix is already known to be present. -/
def strDrop (s : String) (n : Nat) : String := ⟨s.data.drop n⟩

/-- Whitespace set of Go `strings.TrimSpace` for ASCII input. -/
def goIsSpace (c : Char) : Bool :=
  c = ' ' || c = '\t' || c = '\n' || c = '\x0b' || c = '\x0c' || c = '\r'

/-- Go `strings.TrimSpace`, over the character list. -/
def strTrim (s : String) : String :=
  ⟨((s.data.dropWhile goIsSpace).reverse.dropWhile goIsSpace).reverse⟩

/-- Credential environment variable for each provider, the Go `providerEnv`
map; a name outside the map yields "" exactly as a Go map lookup does. -/
def providerEnv (p : String) : String :=
  match p with
  | "openai" => "OPENAI_API_KEY"
  | "anthropic" => "ANTHROPIC_API_KEY"
  | "google" => "GOOGLE_API_KEY"
  | "azureopenai" => "AZURE_OPENAI_API_KEY"
  | "openrouter" => "OPENROUTER_API_KEY"
  | "groq" => "GROQ_API_KEY"
  | "mistral" => "MISTRAL_API_KEY"
  | "together" => "TOGETHER_API_KEY"
  | "cohere" => "COHERE_API_KEY"
  | _ => ""

/-- The keys of the Go `providerEnv` map in byte-lexicographic order; the
source always sorts what it derives from map iteration, so iterating this
sorted list reproduces the sorted results exactly. -/
def providersSorted : List String :=
  ["anthropic", "azureopenai", "cohere", "google", "groq", "mistral",
   "openai", "openrouter", "together"]

/-- The model-prefix hint table, the Go `modelHints` slice in declaration
order (first match wins). -/
def modelHints : List (String × String) :=
  [("gpt-", "openai"), ("o4", "openai"), ("gpt4", "openai"),
   ("gpt-4", "openai"), ("claude", "anthropic"), ("gemini", "google"),
   ("mistral", "mistral"), ("mixtral", "mistral"), ("llama", "groq")]

/-- Go `inferProviderFromModel`: lower-case the model, return the provider
of the first hint whose prefix matches, else "". -/
def inferProviderFromModel (model : String) : String :=
  let m := strLower model
  match modelHints.find? (fun h => strStartsWith m h.1) with
  | some h => h.2
  | none => ""

/-- Go `defaultModelFor`: hard-coded default model id per provider. -/
def defaultModelFor (provider : String) : String :=
  match provider with
  | "openai" => "gpt-4o-mini"
  | "anthropic" => "claude-3-5-sonnet"
  | "google" => "gemini-1.5-pro"
  | "groq" => "llama3-70b-8192"
  | "mistral" => "mistral-large-latest"
  | "openrouter" => "openrouter/auto"
  | "together" => "meta-llama/Meta-Llama-3.1-70B-Instruct-Turbo"
  | "cohere" => "command-r-plus"
  | "azureopenai" => "gpt-4o-mini"
  | _ => "unknown"

/-- Go `firstNonEmpty`. -/
def firstNonEmpty (a b : String) : String :=
  if a ≠ "" then a else b

/-- Sorted list of the credential variable names (the values of the Go
`providerEnv` map after `sort.Strings`). -/
def envVarsSorted : List String :=
  ["ANTHROPIC_API_KEY", "AZURE_OPENAI_API_KEY", "COHERE_API_KEY",
   "GOOGLE_API_KEY", "GROQ_API_KEY", "MISTRAL_API_KEY", "OPENAI_API_KEY",
   "OPENROUTER_API_KEY", "TOGETHER_API_KEY"]

/-- Go `envList`: the sorted credential variable names joined by ", ". -/
def envList : String := String.intercalate ", " envVarsSorted

deriving instance DecidableEq for Except

/-- Resolution errors, one constructor per `fmt.Errorf` site in
`resolver.go`, carrying the data the Go format string interpolates. -/
inductive ResolveErr where
  /-- Go: model env %s is empty or unset (indirection target missing). -/
  | modelEnvEmpty (ref : String)
  /-- Go: no model specified; set --model or NURO_MODEL. -/
  | noModelSpecified
  /-- Go: no provider keys found, listing every candidate variable. -/
  | noProviderKeys (candidates : String)
  /-- Go: model %s implies provider %s but no %s key found. -/
  | modelImpliesProvider (model provider envVar : String)
deriving DecidableEq, Repr

/-- Go `resolveWithNuroVars`: unified-variable resolution, entered only when
NURO_API_KEY is non-empty. -/
def resolveWithNuroVars (env : Env) (nuroKey cliModel : String) :
    Except ResolveErr ProviderResolution :=
  let nuroModel := env "NURO_MODEL"
  let nuroProv := strLower (env "NURO_PROVIDER")
  let nuroBase := env "NURO_BASE_URL"
  let model := firstNonEmpty cliModel nuroModel
  let prov :=
    if nuroProv = "" then
      let inferred := inferProviderFromModel model
      if inferred = "" then "openai" else inferred
    else nuroProv
  if model = "" then
    if prov = "openai" then
      .ok ⟨prov, "gpt-4o-mini", nuroKey,
           firstNonEmpty nuroBase (env "OPENAI_BASE_URL"), "NURO_API_KEY"⟩
    else
      .error .noModelSpecified
  else
    .ok ⟨prov, model, nuroKey,
         firstNonEmpty nuroBase (env "OPENAI_BASE_URL"), "NURO_API_KEY"⟩

/-- Go `contains`: linear membership scan over a string slice. -/
def contains : List String → String → Bool
  | [], _ => false
  | s :: ss, t => if s = t then true else contains ss t

/-- Go `autoDiscoverProvider`: scan the catalog for providers whose
credential variable is non-empty, prefer openai, else the alphabetically
first, then possibly re-route on a model prefix hint. -/
def autoDiscoverProvider (env : Env) (cliModel : String) :
    Except ResolveErr ProviderResolution :=
  let found := providersSorted.filter (fun p => env (providerEnv p) ≠ "")
  match found with
  | [] => .error (.noProviderKeys envList)
  | f0 :: _ =>
    let chosen0 := if contains found "openai" then "openai" else f0
    let finish : String → Except ResolveErr ProviderResolution := fun chosen =>
      let model := if cliModel = "" then defaultModelFor chosen else cliModel
      let baseURL := if chosen = "openai" then env "OPENAI_BASE_URL" else ""
      .ok ⟨chosen, model, env (providerEnv chosen), baseURL,
           strUpper (providerEnv chosen)⟩
    if cliModel ≠ "" then
      let p := inferProviderFromModel cliModel
      if p ≠ "" ∧ contains found p then
        finish p
      else if p ≠ "" ∧ ¬ contains found p then
        .error (.modelImpliesProvider cliModel p (strUpper (providerEnv p)))
      else
        finish chosen0
    else
      finish chosen0

/-- Model-argument indirection from `ResolveProviderAndModel`: a leading $
makes the rest an environment variable reference whose value becomes the
effective model id; unset or empty is an error. -/
def resolveCliModel (env : Env) (modelArg : String) :
    Except ResolveErr String :=
  if modelArg ≠ "" then
    if strStartsWith modelArg "$" then
      if env (strDrop modelArg 1) = "" then
        .error (.modelEnvEmpty (strDrop modelArg 1))
      else .ok (env (strDrop modelArg 1))
    else .ok modelArg
  else .ok ""

/-- Go `ResolveProviderAndModel`: indirection, then the unified-variable
path when NURO_API_KEY is non-empty, else auto-discovery. -/
def ResolveProviderAndModel (env : Env) (modelArg : String) :
    Except ResolveErr ProviderResolution :=
  match resolveCliModel env modelArg with
  | .error e => .error e
  | .ok cliModel =>
    if env "NURO_API_KEY" ≠ "" then
      resolveWithNuroVars env (env "NURO_API_KEY") cliModel
    else
      autoDiscoverProvider env cliModel

/-- The known provider enum of the specification data model. -/
def knownProviders : List String :=
  ["openai", "ollama", "anthropic", "google", "azureopenai", "openrouter",
   "groq", "mistral", "together", "cohere"]

lemma contains_iff (l : List String) (t : String) :
    contains l t = true ↔ t ∈ l := by
  induction l with
  | nil => simp [contains]
  | cons s ss ih =>
    by_cases h : s = t <;> simp [contains, h, ih]
    exact fun h2 => (h h2.symm).elim

lemma providersSorted_sub_known : ∀ q ∈ providersSorted, q ∈ knownProviders := by
  intro q hq
  fin_cases hq <;> simp [knownProviders]

lemma inferProviderFromModel_mem (m p : String)
    (h : inferProviderFromModel m = p) (hp : p ≠ "") : p ∈ providersSorted := by
  unfold inferProviderFromModel at h
  simp only at h
  cases hf : List.find? (fun h => strStartsWith (strLower m) h.1) modelHints with
  | none => rw [hf] at h; exact absurd h.symm hp
  | some hint =>
    rw [hf] at h
    have hmem := List.mem_of_find?_eq_some hf
    have hall : ∀ q ∈ modelHints, q.2 ∈ providersSorted := by
      intro q hq
      fin_cases hq <;> simp [providersSorted]
    rw [← h]
    exact hall hint hmem

lemma defaultModelFor_ne_empty (p : String) : defaultModelFor p ≠ "" := by
  unfold defaultModelFor
  split <;> decide

lemma resolveWithNuroVars_fields (env : Env) (k c : String)
    (r : ProviderResolution) (h : resolveWithNuroVars env k c = .ok r) :
    r.apiKey = k ∧ r.keySource = "NURO_API_KEY" ∧ r.model ≠ "" := by
  unfold resolveWithNuroVars at h
  simp only at h
  split_ifs at h <;> (try injection h with h2) <;> (try subst h2) <;>
    exact ⟨rfl, rfl, by simp_all⟩

lemma resolveWithNuroVars_provider (env : Env) (k c : String)
    (r : ProviderResolution) (h : resolveWithNuroVars env k c = .ok r)
    (hp : env "NURO_PROVIDER" = "") : r.providerName ∈ knownProviders := by
  unfold resolveWithNuroVars at h
  simp only at h
  have hlow : strLower "" = "" := by decide
  rw [hp, hlow, if_pos rfl] at h
  by_cases hi : inferProviderFromModel (firstNonEmpty c (env "NURO_MODEL")) = ""
  · rw [if_pos hi] at h
    by_cases hm : firstNonEmpty c (env "NURO_MODEL") = ""
    · rw [if_pos hm, if_pos rfl] at h
      injection h with h2
      subst h2
      simp [knownProviders]
    · rw [if_neg hm] at h
      injection h with h2
      subst h2
      simp [knownProviders]
  · rw [if_neg hi] at h
    have hmem := inferProviderFromModel_mem _ _ rfl hi
    by_cases hm : firstNonEmpty c (env "NURO_MODEL") = ""
    · rw [if_pos hm] at h
      by_cases ho : inferProviderFromModel (firstNonEmpty c (env "NURO_MODEL")) = "openai"
      · rw [if_pos ho] at h
        injection h with h2
        subst h2
        exact providersSorted_sub_known _ hmem
      · rw [if_neg ho] at h
        injection h
    · rw [if_neg hm] at h
      injection h with h2
      subst h2
      exact providersSorted_sub_known _ hmem

lemma autoDiscoverProvider_ok (env : Env) (c : String)
    (r : ProviderResolution) (h : autoDiscoverProvider env c = .ok r) :
    r.providerName ∈ providersSorted ∧ r.model ≠ "" := by
  unfold autoDiscoverProvider at h
  simp only at h
  cases hF : providersSorted.filter (fun p => env (providerEnv p) ≠ "") with
  | nil => rw [hF] at h; simp at h
  | cons f0 ft =>
    rw [hF] at h
    simp only at h
    have hf0 : f0 ∈ providersSorted := by
      have hm : f0 ∈ providersSorted.filter (fun p => env (providerEnv p) ≠ "") := by
        rw [hF]; exact List.mem_cons_self _ _
      exact (List.mem_filter.mp hm).1
    have hchosen0 : (if contains (f0 :: ft) "openai" then "openai" else f0)
        ∈ providersSorted := by
      split
      · simp [providersSorted]
      · exact hf0
    have hmodel : ∀ chosen : String,
        (if c = "" then defaultModelFor chosen else c) ≠ "" := by
      intro chosen
      split
      · exact defaultModelFor_ne_empty chosen
      · assumption
    by_cases h1 : c = ""
    · rw [if_neg (not_not_intro h1)] at h
      injection h with h2
      subst h2
      exact ⟨hchosen0, hmodel _⟩
    · rw [if_pos h1] at h
      by_cases hp1 : inferProviderFromModel c = ""
      · rw [if_neg (fun hc => hc.1 hp1), if_neg (fun hc => hc.1 hp1)] at h
        injection h with h2
        subst h2
        exact ⟨hchosen0, hmodel _⟩
      · by_cases hp2 : contains (f0 :: ft) (inferProviderFromModel c) = true
        · rw [if_pos ⟨hp1, hp2⟩] at h
          have hmem := (contains_iff _ _).mp hp2
          rw [← hF] at hmem
          have hmemS := (List.mem_filter.mp hmem).1
          injection h with h2
          subst h2
          exact ⟨hmemS, hmodel _⟩
        · rw [if_neg (fun hc => hp2 hc.2), if_pos ⟨hp1, hp2⟩] at h
          injection h

lemma resolveWithNuroVars_congr (env env2 : Env) (k c : String)
    (h1 : env "NURO_MODEL" = env2 "NURO_MODEL")
    (h2 : env "NURO_PROVIDER" = env2 "NURO_PROVIDER")
    (h3 : env "NURO_BASE_URL" = env2 "NURO_BASE_URL")
    (h4 : env "OPENAI_BASE_URL" = env2 "OPENAI_BASE_URL") :
    resolveWithNuroVars env k c = resolveWithNuroVars env2 k c := by
  unfold resolveWithNuroVars
  rw [h1, h2, h3, h4]

/-- Both environments used by the counterexample for the unified-credential
claim: NURO_API_KEY set, the model argument dereferences OPENAI_API_KEY. -/
def c1EnvA : Env := fun v =>
  if v = "NURO_API_KEY" then "nuro-key"
  else if v = "OPENAI_API_KEY" then "model-a" else ""

/-- Same as `c1EnvA` except for the value of OPENAI_API_KEY. -/
def c1EnvB : Env := fun v =>
  if v = "NURO_API_KEY" then "nuro-key"
  else if v = "OPENAI_API_KEY" then "model-b" else ""

/-- C1 counterexample: the two environments `c1EnvA` and `c1EnvB` differ only
in the provider-specific credential variable OPENAI_API_KEY and have the
unified credential NURO_API_KEY non-empty, yet resolution of the same model
argument returns different models, because the dollar-indirection of the
model argument dereferences that credential variable. So the returned model
is not independent of provider-specific credential variables. -/
theorem C1_counterexample :
    ResolveProviderAndModel c1EnvA "$OPENAI_API_KEY" =
      .ok ⟨"openai", "model-a", "nuro-key", "", "NURO_API_KEY"⟩
    ∧ ResolveProviderAndModel c1EnvB "$OPENAI_API_KEY" =
      .ok ⟨"openai", "model-b", "nuro-key", "", "NURO_API_KEY"⟩ := by
  decide

/-- C1 (amended): whenever NURO_API_KEY is non-empty, every successful
resolution carries the unified credential as its credential with source
tag NURO_API_KEY; and the whole resolution result is independent of the
provider-specific credential variables provided the model argument is not
a dollar-indirection naming one of them. -/
theorem C1_unified_precedence :
    (∀ (env : Env) (modelArg : String) (r : ProviderResolution),
      env "NURO_API_KEY" ≠ "" →
      ResolveProviderAndModel env modelArg = .ok r →
      r.apiKey = env "NURO_API_KEY" ∧ r.keySource = "NURO_API_KEY")
    ∧ (∀ (env env2 : Env) (modelArg : String),
      (∀ v, v ∉ envVarsSorted → env v = env2 v) →
      ¬ (strStartsWith modelArg "$" = true ∧ strDrop modelArg 1 ∈ envVarsSorted) →
      env "NURO_API_KEY" ≠ "" →
      ResolveProviderAndModel env modelArg =
        ResolveProviderAndModel env2 modelArg) := by
  constructor
  · intro env modelArg r hk h
    unfold ResolveProviderAndModel at h
    cases hc : resolveCliModel env modelArg with
    | error e => rw [hc] at h; exact Except.noConfusion h
    | ok c =>
      rw [hc] at h
      simp only at h
      rw [if_pos hk] at h
      exact ⟨(resolveWithNuroVars_fields _ _ _ _ h).1,
             (resolveWithNuroVars_fields _ _ _ _ h).2.1⟩
  · intro env env2 modelArg hag hnd hk
    have hcm : resolveCliModel env modelArg = resolveCliModel env2 modelArg := by
      unfold resolveCliModel
      by_cases h0 : modelArg = ""
      · rw [if_neg (not_not_intro h0), if_neg (not_not_intro h0)]
      · rw [if_pos h0, if_pos h0]
        by_cases hS : strStartsWith modelArg "$" = true
        · have hv := hag (strDrop modelArg 1) (fun hmem => hnd ⟨hS, hmem⟩)
          rw [if_pos hS, if_pos hS, hv]
        · rw [if_neg hS, if_neg hS]
    have hknv : env "NURO_API_KEY" = env2 "NURO_API_KEY" :=
      hag _ (by decide)
    have hk2 : env2 "NURO_API_KEY" ≠ "" := hknv ▸ hk
    unfold ResolveProviderAndModel
    rw [hcm]
    cases hc : resolveCliModel env2 modelArg with
    | error e => rfl
    | ok c =>
      simp only
      rw [hknv]
      rw [if_pos hk2, if_pos hk2]
      exact resolveWithNuroVars_congr env env2 _ c
        (hag _ (by decide)) (hag _ (by decide)) (hag _ (by decide))
        (hag _ (by decide))

/-- First environment of the C1 witness: unified credential plus an
anthropic credential set to one value. -/
def c1wEnvA : Env := fun v =>
  if v = "NURO_API_KEY" then "k"
  else if v = "NURO_MODEL" then "m"
  else if v = "ANTHROPIC_API_KEY" then "x" else ""

/-- Second environment of the C1 witness: identical except for the value of
the anthropic credential variable. -/
def c1wEnvB : Env := fun v =>
  if v = "NURO_API_KEY" then "k"
  else if v = "NURO_MODEL" then "m"
  else if v = "ANTHROPIC_API_KEY" then "y" else ""

theorem C1_unified_precedence_witness :
    ((⟨"openai", "m", "k", "", "NURO_API_KEY"⟩ : ProviderResolution).apiKey =
        c1wEnvA "NURO_API_KEY"
      ∧ (⟨"openai", "m", "k", "", "NURO_API_KEY"⟩ :
          ProviderResolution).keySource = "NURO_API_KEY")
    ∧ ResolveProviderAndModel c1wEnvA "mod" =
        ResolveProviderAndModel c1wEnvB "mod" := by
  constructor
  · exact C1_unified_precedence.1 c1wEnvA ""
      ⟨"openai", "m", "k", "", "NURO_API_KEY"⟩ (by decide) (by decide)
  · refine C1_unified_precedence.2 c1wEnvA c1wEnvB "mod" ?_ (by decide) (by decide)
    intro v hv
    by_cases h : v = "ANTHROPIC_API_KEY"
    · subst h
      exact absurd (show "ANTHROPIC_API_KEY" ∈ envVarsSorted by decide) hv
    · simp [c1wEnvA, c1wEnvB, h]

/-- C2: in auto-discovery with at least one credential found and a non-empty
model argument matching a hint for provider p, resolution re-routes to p
with the credential of p when that credential is discovered, and otherwise
fails with the error naming the missing credential variable of p; it never
falls back to another discovered provider. -/
theorem C2_auto_discovery_reroute (env : Env) (cliModel p : String)
    (hm : cliModel ≠ "") (hinf : inferProviderFromModel cliModel = p)
    (hp : p ≠ "")
    (hfound : providersSorted.filter (fun q => env (providerEnv q) ≠ "") ≠ []) :
    (env (providerEnv p) ≠ "" →
      autoDiscoverProvider env cliModel =
        .ok ⟨p, cliModel, env (providerEnv p),
             (if p = "openai" then env "OPENAI_BASE_URL" else ""),
             strUpper (providerEnv p)⟩)
    ∧ (env (providerEnv p) = "" →
      autoDiscoverProvider env cliModel =
        .error (.modelImpliesProvider cliModel p (strUpper (providerEnv p)))) := by
  have hmemP : p ∈ providersSorted := inferProviderFromModel_mem _ _ hinf hp
  constructor
  · intro hk
    unfold autoDiscoverProvider
    simp only
    cases hF : providersSorted.filter (fun q => env (providerEnv q) ≠ "") with
    | nil => exact absurd hF hfound
    | cons f0 ft =>
      simp only
      have hcont : contains (f0 :: ft) p = true := by
        rw [contains_iff, ← hF]
        exact List.mem_filter.mpr ⟨hmemP, by simpa using hk⟩
      rw [if_pos hm, hinf, if_pos ⟨hp, hcont⟩, if_neg hm]
  · intro hk
    unfold autoDiscoverProvider
    simp only
    cases hF : providersSorted.filter (fun q => env (providerEnv q) ≠ "") with
    | nil => exact absurd hF hfound
    | cons f0 ft =>
      simp only
      have hnc : ¬ contains (f0 :: ft) p = true := by
        intro hc
        have hmem := (contains_iff _ _).mp hc
        rw [← hF] at hmem
        have := (List.mem_filter.mp hmem).2
        simp [hk] at this
      rw [if_pos hm, hinf, if_neg (fun hc => hnc hc.2), if_pos ⟨hp, hnc⟩]

/-- Environment of the first C2 witness branch: openai and groq credentials
both discovered; a llama-prefixed model re-routes to groq. -/
def c2wEnv : Env := fun v =>
  if v = "OPENAI_API_KEY" then "sk-o"
  else if v = "GROQ_API_KEY" then "gk" else ""

/-- Environment of the second C2 witness branch: only the openai credential
is discovered; a claude-prefixed model implies anthropic, which is missing. -/
def c2wEnv2 : Env := fun v =>
  if v = "OPENAI_API_KEY" then "sk-o" else ""

theorem C2_auto_discovery_reroute_witness :
    autoDiscoverProvider c2wEnv "llama3-70b" =
      .ok ⟨"groq", "llama3-70b", "gk", "", "GROQ_API_KEY"⟩
    ∧ autoDiscoverProvider c2wEnv2 "claude-3" =
      .error (.modelImpliesProvider "claude-3" "anthropic"
        "ANTHROPIC_API_KEY") := by
  constructor
  · exact ((C2_auto_discovery_reroute c2wEnv "llama3-70b" "groq"
      (by decide) (by decide) (by decide) (by decide)).1 (by decide)).trans
      (by decide)
  · exact ((C2_auto_discovery_reroute c2wEnv2 "claude-3" "anthropic"
      (by decide) (by decide) (by decide) (by decide)).2 (by decide)).trans
      (by decide)

/-- Environment of the C9 counterexample: an arbitrary unknown provider
name in NURO_PROVIDER. -/
def c9Env : Env := fun v =>
  if v = "NURO_API_KEY" then "k"
  else if v = "NURO_PROVIDER" then "bogus"
  else if v = "NURO_MODEL" then "m" else ""

/-- C9 counterexample: with NURO_API_KEY set and NURO_PROVIDER set to an
arbitrary string outside the known provider enum, resolution succeeds and
returns that string as the provider identifier, violating the claimed
invariant that the provider of every successful resolution is a known enum
value. -/
theorem C9_counterexample :
    ResolveProviderAndModel c9Env "" =
      .ok ⟨"bogus", "m", "k", "", "NURO_API_KEY"⟩
    ∧ "bogus" ∉ knownProviders := by
  decide

/-- C9 (amended): every successful resolution has a non-empty model; the
provider identifier is a known enum value on the auto-discovery path (no
unified credential) and on the unified path when NURO_PROVIDER is unset,
but an arbitrary non-empty NURO_PROVIDER value is passed through
unvalidated. -/
theorem C9_resolved_target_invariant (env : Env) (modelArg : String)
    (r : ProviderResolution)
    (h : ResolveProviderAndModel env modelArg = .ok r) :
    r.model ≠ ""
    ∧ (env "NURO_API_KEY" = "" → r.providerName ∈ knownProviders)
    ∧ (env "NURO_PROVIDER" = "" → r.providerName ∈ knownProviders) := by
  unfold ResolveProviderAndModel at h
  cases hc : resolveCliModel env modelArg with
  | error e => rw [hc] at h; exact Except.noConfusion h
  | ok c =>
    rw [hc] at h
    simp only at h
    by_cases hk : env "NURO_API_KEY" ≠ ""
    · rw [if_pos hk] at h
      exact ⟨(resolveWithNuroVars_fields _ _ _ _ h).2.2,
             fun hke => (hk hke).elim,
             fun hpv => resolveWithNuroVars_provider _ _ _ _ h hpv⟩
    · rw [if_neg hk] at h
      obtain ⟨hmem, hm⟩ := autoDiscoverProvider_ok _ _ _ h
      exact ⟨hm, fun _ => providersSorted_sub_known _ hmem,
             fun _ => providersSorted_sub_known _ hmem⟩

/-- Environment of the C9 witness: auto-discovery with a single openai
credential. -/
def c9wEnv : Env := fun v => if v = "OPENAI_API_KEY" then "sk" else ""

theorem C9_resolved_target_invariant_witness :
    (⟨"openai", "gpt-4o-mini", "sk", "", "OPENAI_API_KEY"⟩ :
        ProviderResolution).model ≠ ""
    ∧ (c9wEnv "NURO_API_KEY" = "" →
        (⟨"openai", "gpt-4o-mini", "sk", "", "OPENAI_API_KEY"⟩ :
          ProviderResolution).providerName ∈ knownProviders)
    ∧ (c9wEnv "NURO_PROVIDER" = "" →
        (⟨"openai", "gpt-4o-mini", "sk", "", "OPENAI_API_KEY"⟩ :
          ProviderResolution).providerName ∈ knownProviders) :=
  C9_resolved_target_invariant c9wEnv ""
    ⟨"openai", "gpt-4o-mini", "sk", "", "OPENAI_API_KEY"⟩ (by decide)

/-- Go `buildUserContent` (OpenAI prose join): trim both inputs, then the
first matching case of the sequential returns. -/
def buildUserContent (prompt dat : String) : String :=
  let p := strTrim prompt
  let d := strTrim dat
  if p ≠ "" ∧ d ≠ "" then p ++ " in the following data: " ++ d
  else if p ≠ "" then p
  else if d ≠ "" then "Data:\n```\n" ++ d ++ "\n```"
  else ""

/-- Go `assembleMessages`: a single user message with the prose join as
content; a message is (role, content). -/
def assembleMessages (prompt dat : String) : List (String × String) :=
  [("user", buildUserContent prompt dat)]

/-- Go `buildOllamaPrompt` (labeled join for the native Ollama endpoint). -/
def buildOllamaPrompt (prompt dat : String) : String :=
  let p := strTrim prompt
  let d := strTrim dat
  if p ≠ "" ∧ d ≠ "" then p ++ "\n\nData:\n```\n" ++ d ++ "\n```"
  else if p ≠ "" then p
  else if d ≠ "" then "Here is some data to analyze:\n\n```\n" ++ d ++ "\n```"
  else ""

/-- C5 counterexample: the prose join of an empty prompt with data "d" has
no trailing newline, contrary to the claimed fenced block ending in a
newline; and both joins return the trimmed prompt, not the prompt verbatim,
when the prompt carries surrounding whitespace and the data is empty. -/
theorem C5_counterexample :
    buildUserContent "" "d" = "Data:\n```\nd\n```"
    ∧ buildUserContent "" "d" ≠ "Data:\n```\nd\n```\n"
    ∧ buildUserContent " hi " "" = "hi"
    ∧ buildUserContent " hi " "" ≠ " hi "
    ∧ buildOllamaPrompt " hi " "" = "hi"
    ∧ buildOllamaPrompt " hi " "" ≠ " hi " := by
  decide

/-- C5 (amended): with prompt and data each trimmed of surrounding
whitespace and the trimmed values used in the output, the prose join
returns the four claimed shapes with no trailing newline on the data-only
fenced block, and the labeled join returns its four claimed shapes. -/
theorem C5_assembler_joins (p d : String) :
    (strTrim p ≠ "" → strTrim d ≠ "" →
      buildUserContent p d =
        strTrim p ++ " in the following data: " ++ strTrim d)
    ∧ (strTrim p ≠ "" → strTrim d = "" → buildUserContent p d = strTrim p)
    ∧ (strTrim p = "" → strTrim d ≠ "" →
      buildUserContent p d = "Data:\n```\n" ++ strTrim d ++ "\n```")
    ∧ (strTrim p = "" → strTrim d = "" → buildUserContent p d = "")
    ∧ (strTrim p ≠ "" → strTrim d ≠ "" →
      buildOllamaPrompt p d =
        strTrim p ++ "\n\nData:\n```\n" ++ strTrim d ++ "\n```")
    ∧ (strTrim p ≠ "" → strTrim d = "" → buildOllamaPrompt p d = strTrim p)
    ∧ (strTrim p = "" → strTrim d ≠ "" →
      buildOllamaPrompt p d =
        "Here is some data to analyze:\n\n```\n" ++ strTrim d ++ "\n```")
    ∧ (strTrim p = "" → strTrim d = "" → buildOllamaPrompt p d = "") := by
  unfold buildUserContent buildOllamaPrompt
  refine ⟨?_, ?_, ?_, ?_, ?_, ?_, ?_, ?_⟩ <;> intro h1 h2 <;> simp [h1, h2]

theorem C5_assembler_joins_witness :
    buildUserContent "count words" "one two three four 5" =
      "count words in the following data: one two three four 5"
    ∧ buildOllamaPrompt "count words" "one two three four 5" =
      "count words\n\nData:\n```\none two three four 5\n```" :=
  ⟨((C5_assembler_joins "count words" "one two three four 5").1
      (by decide) (by decide)).trans (by decide),
   ((C5_assembler_joins "count words" "one two three four 5").2.2.2.2.1
      (by decide) (by decide)).trans (by decide)⟩

/-- Completion request arguments, the Go `CompletionArgs` struct; the Go
`float64` sampling parameters become rationals and the timeout duration an
integer nanosecond count. -/
structure CompletionArgs where
  model : String
  prompt : String
  dat : String
  maxTokens : Int
  temperature : ℚ
  topP : ℚ
  stream : Bool
  jsonOut : Bool
  timeout : Int
deriving DecidableEq

/-- Go `modelUsesResponsesAPI`: trimmed, lower-cased model id; empty is
false; else true exactly on a reserved prefix list. -/
def modelUsesResponsesAPI (model : String) : Bool :=
  let m := strTrim (strLower model)
  if m = "" then false
  else ["o1", "gpt-4.1", "gpt-5"].any (fun p => strStartsWith m p)

/-- Go `responsesSupportsSampling`: empty is true; the gpt-5 family is
false; everything else true. -/
def responsesSupportsSampling (model : String) : Bool :=
  let m := strTrim (strLower model)
  if m = "" then true
  else if strStartsWith m "gpt-5" then false
  else true

/-- Responses-API request body, the Go `oaResponsesRequest` struct; fields
not assigned keep the Go zero value. -/
structure OaResponsesRequest where
  model : String
  input : String
  maxOutputTokens : Int
  temperature : ℚ
  topP : ℚ
  stream : Bool
deriving DecidableEq

/-- Responses-path body construction shared verbatim by the Complete
(stream := false) and Stream (stream := true) entry points: assign model,
input, max tokens and the stream flag, then temperature and top-p only when
sampling is supported. -/
def mkResponsesRequest (args : CompletionArgs) (stream : Bool) :
    OaResponsesRequest :=
  let base : OaResponsesRequest :=
    ⟨args.model, buildUserContent args.prompt args.dat, args.maxTokens,
     0, 0, stream⟩
  if responsesSupportsSampling args.model then
    { base with temperature := args.temperature, topP := args.topP }
  else base

/-- Serialized-body presence of the temperature field: the Go struct tag
omitempty drops a zero float64, so the field is on the wire iff nonzero. -/
def responsesBodyHasTemperature (b : OaResponsesRequest) : Bool :=
  b.temperature ≠ 0

/-- Serialized-body presence of the top-p field under omitempty. -/
def responsesBodyHasTopP (b : OaResponsesRequest) : Bool :=
  b.topP ≠ 0

/-- Chat-completions request body, the Go `oaChatRequest` struct. -/
structure OaChatRequest where
  model : String
  messages : List (String × String)
  maxTokens : Int
  temperature : ℚ
  topP : ℚ
  stream : Bool
deriving DecidableEq

/-- Chat-path body construction shared by Complete and Stream. -/
def mkChatRequest (args : CompletionArgs) (stream : Bool) : OaChatRequest :=
  ⟨args.model, assembleMessages args.prompt args.dat, args.maxTokens,
   args.temperature, args.topP, stream⟩

/-- The endpoint and body a single OpenAI provider call will use. -/
inductive OaRequestPlan where
  | responses (body : OaResponsesRequest)
  | chat (body : OaChatRequest)
deriving DecidableEq

/-- Endpoint selection performed identically at the top of the Go Complete
and Stream methods: the responses path iff `modelUsesResponsesAPI`. -/
def openAIRequestPlan (args : CompletionArgs) (stream : Bool) :
    OaRequestPlan :=
  if modelUsesResponsesAPI args.model then
    .responses (mkResponsesRequest args stream)
  else
    .chat (mkChatRequest args stream)

/-- Discriminator for the selected endpoint. -/
def isResponsesPlan : OaRequestPlan → Bool
  | .responses _ => true
  | .chat _ => false

lemma modelUsesResponsesAPI_iff (model : String) :
    modelUsesResponsesAPI model = true ↔
      (strStartsWith (strTrim (strLower model)) "o1" = true
       ∨ strStartsWith (strTrim (strLower model)) "gpt-4.1" = true
       ∨ strStartsWith (strTrim (strLower model)) "gpt-5" = true) := by
  unfold modelUsesResponsesAPI
  simp only
  by_cases hm : strTrim (strLower model) = ""
  · rw [if_pos hm, hm]
    simp [strStartsWith, List.isPrefixOf]
  · rw [if_neg hm]
    simp [List.any_cons, List.any_nil, Bool.or_eq_true]

lemma responsesSupportsSampling_gpt5 (model : String)
    (h5 : strStartsWith (strTrim (strLower model)) "gpt-5" = true) :
    responsesSupportsSampling model = false := by
  unfold responsesSupportsSampling
  simp only
  have hm : strTrim (strLower model) ≠ "" := by
    intro he
    rw [he] at h5
    exact absurd h5 (by decide)
  rw [if_neg hm, if_pos h5]

lemma responsesSupportsSampling_other (model : String)
    (h5 : strStartsWith (strTrim (strLower model)) "gpt-5" = false) :
    responsesSupportsSampling model = true := by
  unfold responsesSupportsSampling
  simp only
  by_cases hm : strTrim (strLower model) = ""
  · rw [if_pos hm]
  · rw [if_neg hm, if_neg (by simp [h5])]

/-- C6 counterexample: the model o1 selects the responses API and is outside
the gpt-5 family, yet with zero-valued sampling parameters the request body
built for both Complete and Stream omits temperature and top-p, because the
omitempty serialization drops zero floats; so it is not the case that every
non-gpt-5 responses-API request body includes them. -/
theorem C6_counterexample :
    modelUsesResponsesAPI "o1" = true
    ∧ strStartsWith (strTrim (strLower "o1")) "gpt-5" = false
    ∧ responsesBodyHasTemperature
        (mkResponsesRequest ⟨"o1", "p", "", 0, 0, 0, false, false, 0⟩ false)
        = false
    ∧ responsesBodyHasTopP
        (mkResponsesRequest ⟨"o1", "p", "", 0, 0, 0, false, false, 0⟩ true)
        = false := by
  decide

/-- C6 (amended): the responses variant is selected exactly when the
trimmed, lower-cased model id begins with o1, gpt-4.1 or gpt-5; for every
gpt-5-prefixed model the bodies built for Complete and Stream omit
temperature and top-p entirely; for every other responses-API model the
bodies carry temperature (resp. top-p) iff its value is nonzero, zero
values being dropped by omitempty. -/
theorem C6_responses_selection_and_sampling :
    (∀ (args : CompletionArgs) (stream : Bool),
      isResponsesPlan (openAIRequestPlan args stream) = true ↔
        (strStartsWith (strTrim (strLower args.model)) "o1" = true
         ∨ strStartsWith (strTrim (strLower args.model)) "gpt-4.1" = true
         ∨ strStartsWith (strTrim (strLower args.model)) "gpt-5" = true))
    ∧ (∀ (args : CompletionArgs) (stream : Bool),
      strStartsWith (strTrim (strLower args.model)) "gpt-5" = true →
      responsesBodyHasTemperature (mkResponsesRequest args stream) = false
      ∧ responsesBodyHasTopP (mkResponsesRequest args stream) = false)
    ∧ (∀ (args : CompletionArgs) (stream : Bool),
      strStartsWith (strTrim (strLower args.model)) "gpt-5" = false →
      (responsesBodyHasTemperature (mkResponsesRequest args stream) = true ↔
        args.temperature ≠ 0)
      ∧ (responsesBodyHasTopP (mkResponsesRequest args stream) = true ↔
        args.topP ≠ 0)) := by
  refine ⟨?_, ?_, ?_⟩
  · intro args stream
    rw [← modelUsesResponsesAPI_iff]
    unfold openAIRequestPlan
    by_cases h : modelUsesResponsesAPI args.model = true
    · simp [h, isResponsesPlan]
    · simp only [Bool.not_eq_true] at h
      simp [h, isResponsesPlan]
  · intro args stream h5
    have hsup := responsesSupportsSampling_gpt5 args.model h5
    unfold mkResponsesRequest
    simp [hsup, responsesBodyHasTemperature, responsesBodyHasTopP]
  · intro args stream h5
    have hsup := responsesSupportsSampling_other args.model h5
    unfold mkResponsesRequest
    simp [hsup, responsesBodyHasTemperature, responsesBodyHasTopP]

theorem C6_responses_selection_and_sampling_witness :
    (isResponsesPlan
        (openAIRequestPlan ⟨"gpt-4.1-mini", "", "", 0, 1, 1, false, false, 0⟩
          false) = true ↔
      (strStartsWith (strTrim (strLower "gpt-4.1-mini")) "o1" = true
       ∨ strStartsWith (strTrim (strLower "gpt-4.1-mini")) "gpt-4.1" = true
       ∨ strStartsWith (strTrim (strLower "gpt-4.1-mini")) "gpt-5" = true))
    ∧ (responsesBodyHasTemperature
        (mkResponsesRequest ⟨"gpt-5-turbo", "", "", 0, 1, 1, false, false, 0⟩
          true) = false
      ∧ responsesBodyHasTopP
        (mkResponsesRequest ⟨"gpt-5-turbo", "", "", 0, 1, 1, false, false, 0⟩
          true) = false)
    ∧ ((responsesBodyHasTemperature
        (mkResponsesRequest ⟨"o1", "", "", 0, 1, 0, false, false, 0⟩ false)
          = true ↔ (1 : ℚ) ≠ 0)
      ∧ (responsesBodyHasTopP
        (mkResponsesRequest ⟨"o1", "", "", 0, 1, 0, false, false, 0⟩ false)
          = true ↔ (0 : ℚ) ≠ 0)) :=
  ⟨C6_responses_selection_and_sampling.1
      ⟨"gpt-4.1-mini", "", "", 0, 1, 1, false, false, 0⟩ false,
   C6_responses_selection_and_sampling.2.1
      ⟨"gpt-5-turbo", "", "", 0, 1, 1, false, false, 0⟩ true (by decide),
   C6_responses_selection_and_sampling.2.2
      ⟨"o1", "", "", 0, 1, 0, false, false, 0⟩ false (by decide)⟩

/-- JSON values, the target of the wire-format decoding. -/
inductive JVal where
  | jnull
  | jbool (b : Bool)
  | jnum (n : Int)
  | jstr (s : String)
  | jarr (xs : List JVal)
  | jobj (fields : List (String × JVal))

/-- Skip JSON inter-token whitespace. -/
def skipWs : List Char → List Char
  | c :: cs =>
    if c = ' ' ∨ c = '\t' ∨ c = '\n' ∨ c = '\r' then skipWs cs else c :: cs
  | [] => []

/-- Parse the body of a JSON string after the opening quote; escape
sequences are rejected (a line using them counts as undecodable, which the
tolerant stream loops treat the same way Go treats any unmarshal error). -/
def parseStringBody : List Char → Option (String × List Char)
  | [] => none
  | c :: cs =>
    if c = '"' then some ("", cs)
    else if c = '\\' then none
    else
      match parseStringBody cs with
      | some (s, rest) => some (⟨c :: s.data⟩, rest)
      | none => none

/-- Accumulate decimal digits. -/
def parseDigitsAux (acc : Nat) : List Char → Nat × List Char
  | c :: cs =>
    if c.isDigit then parseDigitsAux (10 * acc + (c.toNat - 48)) cs
    else (acc, c :: cs)
  | [] => (acc, [])

/-- Parse one or more decimal digits. -/
def parseNatDigits : List Char → Option (Nat × List Char)
  | c :: cs =>
    if c.isDigit then some (parseDigitsAux 0 (c :: cs)) else none
  | [] => none

/-- True when the next character would continue a non-integer number;
fractions and exponents are rejected because every numeric field the code
decodes into is an integer, where Go also fails. -/
def nextIsNumCont : List Char → Bool
  | c :: _ => c = '.' || c = 'e' || c = 'E'
  | [] => false

/-- Parse a JSON integer, with optional leading minus. -/
def parseNumFrom (cs : List Char) : Option (Int × List Char) :=
  match cs with
  | '-' :: cs2 =>
    match parseNatDigits cs2 with
    | some (n, rest) =>
      if nextIsNumCont rest then none else some (-(n : Int), rest)
    | none => none
  | _ =>
    match parseNatDigits cs with
    | some (n, rest) =>
      if nextIsNumCont rest then none else some ((n : Int), rest)
    | none => none

mutual

/-- Parse one JSON value; the fuel only bounds recursion depth and is chosen
generously from the input length, so it never runs out on inputs the
grammar accepts. -/
def parseVal : Nat → List Char → Option (JVal × List Char)
  | 0, _ => none
  | Nat.succ fuel, cs =>
    match skipWs cs with
    | [] => none
    | c :: rest =>
      if c = '"' then
        match parseStringBody rest with
        | some (s, r) => some (.jstr s, r)
        | none => none
      else if c = 't' then
        match rest with
        | 'r' :: 'u' :: 'e' :: r => some (.jbool true, r)
        | _ => none
      else if c = 'f' then
        match rest with
        | 'a' :: 'l' :: 's' :: 'e' :: r => some (.jbool false, r)
        | _ => none
      else if c = 'n' then
        match rest with
        | 'u' :: 'l' :: 'l' :: r => some (.jnull, r)
        | _ => none
      else if c = '[' then
        match skipWs rest with
        | ']' :: r => some (.jarr [], r)
        | r2 =>
          match parseArrElems fuel r2 with
          | some (vs, r3) => some (.jarr vs, r3)
          | none => none
      else if c = '\x7b' then
        match skipWs rest with
        | '\x7d' :: r => some (.jobj [], r)
        | r2 =>
          match parseObjFields fuel r2 with
          | some (fs, r3) => some (.jobj fs, r3)
          | none => none
      else if c = '-' ∨ c.isDigit then
        match parseNumFrom (c :: rest) with
        | some (n, r) => some (.jnum n, r)
        | none => none
      else none

/-- Parse the elements of a non-empty JSON array up to the closing bracket. -/
def parseArrElems : Nat → List Char → Option (List JVal × List Char)
  | 0, _ => none
  | Nat.succ fuel, cs =>
    match parseVal fuel cs with
    | none => none
    | some (v, rest) =>
      match skipWs rest with
      | ',' :: r2 =>
        match parseArrElems fuel r2 with
        | some (vs, r3) => some (v :: vs, r3)
        | none => none
      | ']' :: r2 => some ([v], r2)
      | _ => none

/-- Parse the fields of a non-empty JSON object up to the closing brace. -/
def parseObjFields : Nat → List Char → Option (List (String × JVal) × List Char)
  | 0, _ => none
  | Nat.succ fuel, cs =>
    match skipWs cs with
    | '"' :: r1 =>
      match parseStringBody r1 with
      | none => none
      | some (k, r2) =>
        match skipWs r2 with
        | ':' :: r3 =>
          match parseVal fuel r3 with
          | none => none
          | some (v, r4) =>
            match skipWs r4 with
            | ',' :: r5 =>
              match parseObjFields fuel r5 with
              | some (fs, r6) => some ((k, v) :: fs, r6)
              | none => none
            | '\x7d' :: r5 => some ([(k, v)], r5)
            | _ => none
        | _ => none
    | _ => none

end

/-- Parse a complete JSON document: one value and only trailing whitespace. -/
def parseJson (s : String) : Option JVal :=
  match parseVal (4 * s.data.length + 8) s.data with
  | some (v, rest) => if (skipWs rest).isEmpty then some v else none
  | none => none

/-- First binding of a key in a decoded object; the concrete wire inputs in
the claims never carry duplicate keys, where Go would keep the last. -/
def jLookup : List (String × JVal) → String → Option JVal
  | [], _ => none
  | (k, v) :: fs, key => if k = key then some v else jLookup fs key

/-- Decode a string-typed struct field the way `encoding/json` does: an
absent field or null keeps the zero value "", a string is taken, any other
type is an unmarshal error. -/
def jGetString : Option JVal → Option String
  | none => some ""
  | some .jnull => some ""
  | some (.jstr s) => some s
  | some _ => none

/-- Decode a bool-typed struct field (zero value false). -/
def jGetBool : Option JVal → Option Bool
  | none => some false
  | some .jnull => some false
  | some (.jbool b) => some b
  | some _ => none

/-- Decode an int-typed struct field (zero value 0). -/
def jGetInt : Option JVal → Option Int
  | none => some 0
  | some .jnull => some 0
  | some (.jnum n) => some n
  | some _ => none

/-- The fields of the Go `ollamaGenerateResponse` that the decode loops
read: response text, completion flag and the two evaluation counts. -/
structure OllamaChunk where
  response : String
  done : Bool
  promptEvalCount : Int
  evalCount : Int
deriving DecidableEq, Repr

/-- Decode an `ollamaGenerateResponse` from a JSON value; only the fields
the code reads are checked, the others are ignored like unknown keys. -/
def decodeOllamaChunk (v : JVal) : Option OllamaChunk :=
  match v with
  | .jobj fs =>
    match jGetString (jLookup fs "response"), jGetBool (jLookup fs "done"),
        jGetInt (jLookup fs "prompt_eval_count"),
        jGetInt (jLookup fs "eval_count") with
    | some r, some d, some pec, some ec => some ⟨r, d, pec, ec⟩
    | _, _, _, _ => none
  | _ => none

/-- Parse one NDJSON line into an Ollama chunk, the combination of
`json.Unmarshal` and the struct decoding. -/
def parseOllamaLine (line : String) : Option OllamaChunk :=
  (parseJson line).bind decodeOllamaChunk

/-- Decode the delta contents of the choices of an `oaStreamChunk`, in
choice order; the loop reads nothing else from the chunk. -/
def decodeChatChoiceList : List JVal → Option (List String)
  | [] => some []
  | .jobj cfs :: rest =>
    match
      (match jLookup cfs "delta" with
       | none => some ""
       | some .jnull => some ""
       | some (.jobj dfs) => jGetString (jLookup dfs "content")
       | some _ => none),
      decodeChatChoiceList rest with
    | some d, some ds => some (d :: ds)
    | _, _ => none
  | _ :: _ => none

/-- Decode an `oaStreamChunk` to its list of delta contents. -/
def decodeChatChunkDeltas (v : JVal) : Option (List String) :=
  match v with
  | .jobj fs =>
    match jLookup fs "choices" with
    | none => some []
    | some .jnull => some []
    | some (.jarr xs) => decodeChatChoiceList xs
    | some _ => none
  | _ => none

/-- Decode the text fields of one content array of a responses chunk; the
`type` field is declared in the Go struct but never consulted by either
the streaming or the non-streaming emission code. -/
def decodeRespContent : List JVal → Option (List String)
  | [] => some []
  | .jobj cfs :: rest =>
    match jGetString (jLookup cfs "text"), decodeRespContent rest with
    | some t, some ts => some (t :: ts)
    | _, _ => none
  | _ :: _ => none

/-- Decode and flatten the output array of a responses chunk. -/
def decodeRespOutput : List JVal → Option (List String)
  | [] => some []
  | .jobj ofs :: rest =>
    match
      (match jLookup ofs "content" with
       | none => some []
       | some .jnull => some []
       | some (.jarr xs) => decodeRespContent xs
       | some _ => none),
      decodeRespOutput rest with
    | some ts, some rest2 => some (ts ++ rest2)
    | _, _ => none
  | _ :: _ => none

/-- Decode an `oaResponsesStreamChunk` (also the shape of the non-streaming
`oaResponsesResp`) to its flattened list of text fragments. -/
def decodeResponsesChunkTexts (v : JVal) : Option (List String) :=
  match v with
  | .jobj fs =>
    match jLookup fs "output" with
    | none => some []
    | some .jnull => some []
    | some (.jarr xs) => decodeRespOutput xs
    | some _ => none
  | _ => none

/-- Concatenation of a list of strings, the spec-side view of the text a
stream accumulates. -/
def strJoin : List String → String
  | [] => ""
  | s :: rest => s ++ strJoin rest

/-- Error cause of one `ReadString` call, the three cases the Go loops
distinguish. -/
inductive RErr where
  | eof
  | unexpectedEof
  | other (msg : String)
deriving DecidableEq, Repr

/-- Error outcome of a whole stream call: a context cancellation or a
transport error carried through. -/
inductive StreamErr where
  | cancelled
  | transport (msg : String)
deriving DecidableEq, Repr

/-- Observable outcome of a stream call: the sink invocations in order, the
returned total, usage and error. -/
structure StreamOut where
  deltas : List String
  total : String
  usage : Usage
  err : Option StreamErr
deriving DecidableEq, Repr

/-- Accumulator of the Ollama decode loop: sink calls so far, the string
builder, and the final usage captured so far. -/
structure StreamAcc where
  deltas : List String
  total : String
  usage : Usage
deriving DecidableEq, Repr

/-- One iteration of the Ollama loop as observed from outside: the value of
`ctx.Err()` at the top-of-loop check, the line and error returned by
`ReadString`, and the value of `ctx.Err()` at the check inside the error
branch. A trace is the finite list of iterations; exhausting it models a
clean end of input. -/
structure OllamaIter where
  ctxTop : Bool
  line : String
  rerr : Option RErr
  ctxAtErr : Bool
deriving DecidableEq, Repr

/-- Line handling of one Ollama iteration (the body guarded by the length
and emptiness tests): returns the updated accumulator and whether the done
flag broke the loop. -/
def ollamaLineStep (acc : StreamAcc) (line : String) : StreamAcc × Bool :=
  match (if line ≠ "" ∧ strTrim line ≠ "" then parseOllamaLine (strTrim line)
         else none) with
  | some c =>
    let acc1 :=
      if c.response ≠ "" then
        ⟨acc.deltas ++ [c.response], acc.total ++ c.response, acc.usage⟩
      else acc
    if c.done then
      (⟨acc1.deltas, acc1.total,
        ⟨c.promptEvalCount, c.evalCount,
         c.promptEvalCount + c.evalCount⟩⟩, true)
    else (acc1, false)
  | none => (acc, false)

/-- The Ollama streaming decode loop over a trace: cancellation first at
every iteration, then the line, then the error branch where cancellation
is again checked before EOF. -/
def ollamaStreamLoop : StreamAcc → List OllamaIter → StreamOut
  | acc, [] => ⟨acc.deltas, acc.total, acc.usage, none⟩
  | acc, it :: rest =>
    if it.ctxTop then ⟨acc.deltas, acc.total, acc.usage, some .cancelled⟩
    else
      match ollamaLineStep acc it.line with
      | (acc1, true) => ⟨acc1.deltas, acc1.total, acc1.usage, none⟩
      | (acc1, false) =>
        match it.rerr with
        | none => ollamaStreamLoop acc1 rest
        | some e =>
          if it.ctxAtErr then
            ⟨acc1.deltas, acc1.total, acc1.usage, some .cancelled⟩
          else
            match e with
            | .eof => ⟨acc1.deltas, acc1.total, acc1.usage, none⟩
            | .unexpectedEof => ollamaStreamLoop acc1 rest
            | .other m =>
              ⟨acc1.deltas, acc1.total, acc1.usage, some (.transport m)⟩

/-- A whole Ollama stream call starting from the empty accumulator. -/
def ollamaStream (iters : List OllamaIter) : StreamOut :=
  ollamaStreamLoop ⟨[], "", Usage.zero⟩ iters

/-- A clean iteration carrying one line with no read error and no
cancellation. -/
def ollamaLineIter (l : String) : OllamaIter := ⟨false, l, none, false⟩

/-- Ollama stream over a clean line trace. -/
def ollamaStreamLines (ls : List String) : StreamOut :=
  ollamaStream (ls.map ollamaLineIter)

/-- One iteration of either OpenAI SSE loop; those loops have no
top-of-iteration cancellation check. -/
structure OaIter where
  line : String
  rerr : Option RErr
  ctxAtErr : Bool
deriving DecidableEq, Repr

/-- Emit a list of decoded fragments: each non-empty one goes to the sink
and the builder, mirroring the per-choice emission loops. -/
def pushDeltas : List String × String → List String → List String × String
  | acc, [] => acc
  | (ds, t), d :: rest =>
    if d ≠ "" then pushDeltas (ds ++ [d], t ++ d) rest
    else pushDeltas (ds, t) rest

/-- Fragments one chat-completions payload yields: the delta contents when
it unmarshals as a chat chunk, nothing otherwise (tolerant decode). -/
def chatPayloadDeltas (payload : String) : List String :=
  match (parseJson payload).bind decodeChatChunkDeltas with
  | some ds => ds
  | none => []

/-- Fragments one responses-path payload yields: the text fragments when it
unmarshals as a responses chunk (and then the chat decode is never tried),
else the chat delta contents, else nothing. -/
def responsesPayloadDeltas (payload : String) : List String :=
  match parseJson payload with
  | none => []
  | some v =>
    match decodeResponsesChunkTexts v with
    | some ts => ts
    | none =>
      match decodeChatChunkDeltas v with
      | some ds => ds
      | none => []

/-- Line handling of one SSE iteration, shared verbatim by the two OpenAI
loops up to the payload decoding function: trim, require the data prefix,
break on the [DONE] sentinel, else emit the decoded fragments. -/
def sseLineStep (payloadDeltas : String → List String)
    (acc : List String × String) (line : String) :
    (List String × String) × Bool :=
  if line ≠ "" ∧ strStartsWith (strTrim line) "data: " then
    if strDrop (strTrim line) 6 = "[DONE]" then (acc, true)
    else (pushDeltas acc (payloadDeltas (strDrop (strTrim line) 6)), false)
  else (acc, false)

/-- The OpenAI SSE decode loop over a trace: the line first, then the error
branch testing EOF before cancellation; usage is always zero. -/
def sseStreamLoop (payloadDeltas : String → List String) :
    List String × String → List OaIter → StreamOut
  | acc, [] => ⟨acc.1, acc.2, Usage.zero, none⟩
  | acc, it :: rest =>
    match sseLineStep payloadDeltas acc it.line with
    | (acc1, true) => ⟨acc1.1, acc1.2, Usage.zero, none⟩
    | (acc1, false) =>
      match it.rerr with
      | none => sseStreamLoop payloadDeltas acc1 rest
      | some .eof => ⟨acc1.1, acc1.2, Usage.zero, none⟩
      | some e =>
        if it.ctxAtErr then ⟨acc1.1, acc1.2, Usage.zero, some .cancelled⟩
        else
          match e with
          | .unexpectedEof => sseStreamLoop payloadDeltas acc1 rest
          | .other m => ⟨acc1.1, acc1.2, Usage.zero, some (.transport m)⟩
          | .eof => ⟨acc1.1, acc1.2, Usage.zero, none⟩

/-- The chat-completions streaming path of the OpenAI provider. -/
def openAIChatStream (iters : List OaIter) : StreamOut :=
  sseStreamLoop chatPayloadDeltas ([], "") iters

/-- The responses-API streaming path of the OpenAI provider. -/
def openAIResponsesStream (iters : List OaIter) : StreamOut :=
  sseStreamLoop responsesPayloadDeltas ([], "") iters

/-- A clean SSE iteration carrying one line. -/
def oaLineIter (l : String) : OaIter := ⟨l, none, false⟩

/-- Chat streaming over a clean line trace. -/
def openAIChatStreamLines (ls : List String) : StreamOut :=
  openAIChatStream (ls.map oaLineIter)

/-- Responses streaming over a clean line trace. -/
def openAIResponsesStreamLines (ls : List String) : StreamOut :=
  openAIResponsesStream (ls.map oaLineIter)

/-- Spec-side view of an Ollama line trace: the non-empty response
fragments of the decodable lines, in order, up to and including the first
line whose done flag is set. -/
def ollamaFragments : List String → List String
  | [] => []
  | l :: ls =>
    match (if l ≠ "" ∧ strTrim l ≠ "" then parseOllamaLine (strTrim l)
           else none) with
    | some c =>
      (if c.response ≠ "" then [c.response] else []) ++
        (if c.done then [] else ollamaFragments ls)
    | none => ollamaFragments ls

/-- Spec-side view of the final usage of an Ollama line trace: the counts
of the first done chunk, else the default carried in. -/
def ollamaFinalUsage (dflt : Usage) : List String → Usage
  | [] => dflt
  | l :: ls =>
    match (if l ≠ "" ∧ strTrim l ≠ "" then parseOllamaLine (strTrim l)
           else none) with
    | some c =>
      if c.done then
        ⟨c.promptEvalCount, c.evalCount, c.promptEvalCount + c.evalCount⟩
      else ollamaFinalUsage dflt ls
    | none => ollamaFinalUsage dflt ls

/-- Spec-side view of an SSE line trace: the non-empty fragments of each
framed payload, in order, stopping at the [DONE] sentinel. -/
def sseFragments (payloadDeltas : String → List String) :
    List String → List String
  | [] => []
  | l :: ls =>
    if l ≠ "" ∧ strStartsWith (strTrim l) "data: " then
      if strDrop (strTrim l) 6 = "[DONE]" then []
      else
        (payloadDeltas (strDrop (strTrim l) 6)).filter (fun d => d ≠ "") ++
          sseFragments payloadDeltas ls
    else sseFragments payloadDeltas ls

/-- Non-streaming Ollama Complete decode: one JSON object, its response
text and the usage mapped from the evaluation counts; none is a decode
error. -/
def ollamaComplete (body : String) : Option (String × Usage) :=
  match (parseJson body).bind decodeOllamaChunk with
  | some r =>
    some (r.response,
      ⟨r.promptEvalCount, r.evalCount, r.promptEvalCount + r.evalCount⟩)
  | none => none

/-- Decode the message contents of the choices of an `oaResp`. -/
def decodeChatMsgList : List JVal → Option (List String)
  | [] => some []
  | .jobj cfs :: rest =>
    match
      (match jLookup cfs "message" with
       | none => some ""
       | some .jnull => some ""
       | some (.jobj mfs) => jGetString (jLookup mfs "content")
       | some _ => none),
      decodeChatMsgList rest with
    | some t, some ts => some (t :: ts)
    | _, _ => none
  | _ :: _ => none

/-- Decode an `oaResp` to the message contents of its choices. -/
def decodeChatRespChoices (v : JVal) : Option (List String) :=
  match v with
  | .jobj fs =>
    match jLookup fs "choices" with
    | none => some []
    | some .jnull => some []
    | some (.jarr xs) => decodeChatMsgList xs
    | some _ => none
  | _ => none

/-- Non-streaming chat Complete decode: the first choice message content;
none covers both a decode error and the no-choices error. -/
def chatCompleteText (body : String) : Option String :=
  match (parseJson body).bind decodeChatRespChoices with
  | some (t :: _) => some t
  | some [] => none
  | none => none

/-- Non-streaming responses Complete decode: concatenation of the non-empty
text fragments of the output content arrays. -/
def responsesCompleteText (body : String) : Option String :=
  match (parseJson body).bind decodeResponsesChunkTexts with
  | some ts => some (strJoin (ts.filter (fun t => t ≠ "")))
  | none => none

lemma strJoin_append (a b : List String) :
    strJoin (a ++ b) = strJoin a ++ strJoin b := by
  induction a with
  | nil => simp [strJoin]
  | cons x rest ih => simp [strJoin, ih, String.append_assoc]

lemma pushDeltas_eq (xs : List String) : ∀ ds t,
    pushDeltas (ds, t) xs =
      (ds ++ xs.filter (fun d => d ≠ ""),
       t ++ strJoin (xs.filter (fun d => d ≠ ""))) := by
  induction xs with
  | nil => intro ds t; simp [pushDeltas, strJoin]
  | cons d rest ih =>
    intro ds t
    by_cases h : d = ""
    · simp [pushDeltas, h, ih, strJoin]
    · simp [pushDeltas, h, ih, strJoin, String.append_assoc]

lemma sseStreamLoop_clean (pd : String → List String) (ls : List String) :
    ∀ acc : List String × String,
    sseStreamLoop pd acc (ls.map oaLineIter) =
      ⟨acc.1 ++ sseFragments pd ls, acc.2 ++ strJoin (sseFragments pd ls),
       Usage.zero, none⟩ := by
  induction ls with
  | nil => intro acc; simp [sseStreamLoop, sseFragments, strJoin]
  | cons l rest ih =>
    intro acc
    by_cases hg : l ≠ "" ∧ strStartsWith (strTrim l) "data: " = true
    · by_cases hd : strDrop (strTrim l) 6 = "[DONE]"
      · simp [sseStreamLoop, sseLineStep, oaLineIter, sseFragments, hg, hd,
          strJoin]
      · simp only [List.map_cons, sseStreamLoop, sseLineStep, oaLineIter,
          if_pos hg, if_neg hd]
        rw [ih]
        cases acc with
        | mk ds t =>
          rw [pushDeltas_eq]
          simp [sseFragments, hg, hd, strJoin_append, String.append_assoc]
    · simp [sseStreamLoop, sseLineStep, oaLineIter, sseFragments, hg, ih]

lemma ollamaStreamLoop_clean (ls : List String) :
    ∀ acc : StreamAcc,
    ollamaStreamLoop acc (ls.map ollamaLineIter) =
      ⟨acc.deltas ++ ollamaFragments ls,
       acc.total ++ strJoin (ollamaFragments ls),
       ollamaFinalUsage acc.usage ls, none⟩ := by
  induction ls with
  | nil =>
    intro acc
    simp [ollamaStreamLoop, ollamaFragments, ollamaFinalUsage, strJoin]
  | cons l rest ih =>
    intro acc
    cases hp : (if l ≠ "" ∧ strTrim l ≠ "" then parseOllamaLine (strTrim l)
                else none) with
    | none =>
      simp only [List.map_cons, ollamaStreamLoop, ollamaLineIter,
        ollamaLineStep, hp]
      simp only [Bool.false_eq_true, if_false]
      rw [ih]
      simp [ollamaFragments, ollamaFinalUsage, hp]
    | some c =>
      by_cases hd : c.done = true
      · by_cases hr : c.response = ""
        · simp [ollamaStreamLoop, ollamaLineIter, ollamaLineStep, hp, hd, hr,
            ollamaFragments, ollamaFinalUsage, strJoin]
        · simp [ollamaStreamLoop, ollamaLineIter, ollamaLineStep, hp, hd, hr,
            ollamaFragments, ollamaFinalUsage, strJoin]
      · have hd2 : c.done = false := by
          cases hcd : c.done
          · rfl
          · exact absurd hcd hd
        by_cases hr : c.response = ""
        · simp only [List.map_cons, ollamaStreamLoop, ollamaLineIter,
            ollamaLineStep, hp, hd2, hr]
          simp only [Bool.false_eq_true, if_false]
          rw [ih]
          simp [ollamaFragments, ollamaFinalUsage, hp, hd2, hr]
        · simp only [List.map_cons, ollamaStreamLoop, ollamaLineIter,
            ollamaLineStep, hp, hd2, hr]
          simp only [Bool.false_eq_true, if_false]
          rw [ih]
          simp [ollamaFragments, ollamaFinalUsage, hp, hd2, hr, strJoin,
            strJoin_append, String.append_assoc]

lemma ollamaFinalUsage_no_done (dflt : Usage) (ls : List String)
    (h : ∀ l ∈ ls, ∀ c, parseOllamaLine (strTrim l) = some c →
      c.done = false) :
    ollamaFinalUsage dflt ls = dflt := by
  induction ls with
  | nil => rfl
  | cons l rest ih =>
    unfold ollamaFinalUsage
    cases hp : (if l ≠ "" ∧ strTrim l ≠ "" then parseOllamaLine (strTrim l)
                else none) with
    | none => exact ih (fun x hx => h x (List.mem_cons_of_mem _ hx))
    | some c =>
      have hpp : parseOllamaLine (strTrim l) = some c := by
        by_cases hgg : l ≠ "" ∧ strTrim l ≠ ""
        · rw [if_pos hgg] at hp; exact hp
        · rw [if_neg hgg] at hp; exact absurd hp (by simp)
      have hdone := h l (List.mem_cons_self _ _) c hpp
      simp only [hdone, Bool.false_eq_true, if_false]
      exact ih (fun x hx => h x (List.mem_cons_of_mem _ hx))

lemma sseStreamLoop_usage (pd : String → List String) (iters : List OaIter) :
    ∀ acc, (sseStreamLoop pd acc iters).usage = Usage.zero := by
  induction iters with
  | nil => intro acc; rfl
  | cons it rest ih =>
    intro acc
    unfold sseStreamLoop
    cases hstep : sseLineStep pd acc it.line with
    | mk acc1 flag =>
      cases flag
      · cases hre : it.rerr with
        | none => simpa using ih acc1
        | some e =>
          cases e
          · rfl
          · by_cases hc : it.ctxAtErr = true <;> simp [hc, ih]
          · by_cases hc : it.ctxAtErr = true <;> simp [hc, ih]
      · rfl

lemma sseStreamLoop_done_prefix (pd : String → List String) (it : OaIter)
    (suf : List OaIter)
    (h1 : it.line ≠ "") (h2 : strStartsWith (strTrim it.line) "data: " = true)
    (h3 : strDrop (strTrim it.line) 6 = "[DONE]") (pre : List OaIter) :
    ∀ acc, sseStreamLoop pd acc (pre ++ it :: suf) =
      sseStreamLoop pd acc (pre ++ [it]) := by
  induction pre with
  | nil =>
    intro acc
    simp only [List.nil_append]
    unfold sseStreamLoop
    have hstep : sseLineStep pd acc it.line = (acc, true) := by
      unfold sseLineStep
      rw [if_pos ⟨h1, h2⟩, if_pos h3]
    rw [hstep]
  | cons p pre ih =>
    intro acc
    simp only [List.cons_append]
    unfold sseStreamLoop
    cases hstep : sseLineStep pd acc p.line with
    | mk acc1 flag =>
      cases flag
      · cases hre : p.rerr with
        | none => simpa using ih acc1
        | some e =>
          cases e
          · rfl
          · by_cases hc : p.ctxAtErr = true <;> simp [hc, ih]
          · by_cases hc : p.ctxAtErr = true <;> simp [hc, ih]
      · rfl

lemma ollama_top_cancel (acc : StreamAcc) (s : List OllamaIter)
    (it : OllamaIter) (h : it.ctxTop = true) :
    ollamaStreamLoop acc (it :: s) =
      ⟨acc.deltas, acc.total, acc.usage, some .cancelled⟩ := by
  unfold ollamaStreamLoop
  rw [h]
  simp

lemma ollama_err_cancel (acc : StreamAcc) (s : List OllamaIter) (l : String)
    (e : RErr) (hstep : (ollamaLineStep acc l).2 = false) :
    ollamaStreamLoop acc (⟨false, l, some e, true⟩ :: s) =
      ⟨(ollamaLineStep acc l).1.deltas, (ollamaLineStep acc l).1.total,
       (ollamaLineStep acc l).1.usage, some .cancelled⟩ := by
  unfold ollamaStreamLoop
  simp only
  cases hs : ollamaLineStep acc l with
  | mk acc1 flag =>
    rw [hs] at hstep
    simp only at hstep
    subst hstep
    simp

lemma sse_eof_beats_cancel (pd : String → List String)
    (acc : List String × String) (s : List OaIter) (l : String)
    (hstep : (sseLineStep pd acc l).2 = false) :
    sseStreamLoop pd acc (⟨l, some .eof, true⟩ :: s) =
      ⟨(sseLineStep pd acc l).1.1, (sseLineStep pd acc l).1.2,
       Usage.zero, none⟩ := by
  unfold sseStreamLoop
  cases hs : sseLineStep pd acc l with
  | mk acc1 flag =>
    rw [hs] at hstep
    simp only at hstep
    subst hstep
    simp

lemma sse_other_cancel (pd : String → List String)
    (acc : List String × String) (s : List OaIter) (l m : String)
    (hstep : (sseLineStep pd acc l).2 = false) :
    sseStreamLoop pd acc (⟨l, some (.other m), true⟩ :: s) =
      ⟨(sseLineStep pd acc l).1.1, (sseLineStep pd acc l).1.2,
       Usage.zero, some .cancelled⟩ := by
  unfold sseStreamLoop
  cases hs : sseLineStep pd acc l with
  | mk acc1 flag =>
    rw [hs] at hstep
    simp only at hstep
    subst hstep
    simp

/-- C3 counterexample: on the OpenAI chat-completions streaming loop, an
iteration that observes cancellation (ctx non-nil at the error-branch
check) together with a transport EOF terminates cleanly with no error at
all, because the loop tests EOF before cancellation and has no
top-of-iteration cancellation check; so cancellation is not checked first
and does not take precedence over end-of-input. -/
theorem C3_counterexample :
    openAIChatStream [⟨"", some .eof, true⟩] = ⟨[], "", Usage.zero, none⟩
    ∧ (openAIChatStream [⟨"", some .eof, true⟩]).err ≠ some .cancelled := by
  decide

/-- C3 (amended): the Ollama loop checks cancellation first at every
iteration and returns it, with the partial text, in preference to every
read error including EOF; the two OpenAI SSE loops check cancellation only
inside the error branch after the EOF test, so a clean EOF ends the stream
without surfacing cancellation, while for any other transport error
cancellation takes precedence and is returned with the partial text. -/
theorem C3_cancellation_precedence :
    (∀ (acc : StreamAcc) (s : List OllamaIter) (it : OllamaIter),
      it.ctxTop = true →
      ollamaStreamLoop acc (it :: s) =
        ⟨acc.deltas, acc.total, acc.usage, some .cancelled⟩)
    ∧ (∀ (acc : StreamAcc) (s : List OllamaIter) (l : String) (e : RErr),
      (ollamaLineStep acc l).2 = false →
      ollamaStreamLoop acc (⟨false, l, some e, true⟩ :: s) =
        ⟨(ollamaLineStep acc l).1.deltas, (ollamaLineStep acc l).1.total,
         (ollamaLineStep acc l).1.usage, some .cancelled⟩)
    ∧ (∀ (pd : String → List String) (acc : List String × String)
        (s : List OaIter) (l : String),
      (sseLineStep pd acc l).2 = false →
      sseStreamLoop pd acc (⟨l, some .eof, true⟩ :: s) =
        ⟨(sseLineStep pd acc l).1.1, (sseLineStep pd acc l).1.2,
         Usage.zero, none⟩)
    ∧ (∀ (pd : String → List String) (acc : List String × String)
        (s : List OaIter) (l m : String),
      (sseLineStep pd acc l).2 = false →
      sseStreamLoop pd acc (⟨l, some (.other m), true⟩ :: s) =
        ⟨(sseLineStep pd acc l).1.1, (sseLineStep pd acc l).1.2,
         Usage.zero, some .cancelled⟩) :=
  ⟨fun acc s it h => ollama_top_cancel acc s it h,
   fun acc s l e h => ollama_err_cancel acc s l e h,
   fun pd acc s l h => sse_eof_beats_cancel pd acc s l h,
   fun pd acc s l m h => sse_other_cancel pd acc s l m h⟩

theorem C3_cancellation_precedence_witness :
    ollamaStreamLoop ⟨[], "", Usage.zero⟩ [⟨true, "", none, false⟩] =
      ⟨[], "", Usage.zero, some .cancelled⟩
    ∧ ollamaStreamLoop ⟨[], "", Usage.zero⟩ [⟨false, "", some .eof, true⟩] =
      ⟨[], "", Usage.zero, some .cancelled⟩
    ∧ sseStreamLoop chatPayloadDeltas ([], "") [⟨"", some .eof, true⟩] =
      ⟨[], "", Usage.zero, none⟩
    ∧ sseStreamLoop chatPayloadDeltas ([], "")
        [⟨"", some (.other "boom"), true⟩] =
      ⟨[], "", Usage.zero, some .cancelled⟩ := by
  refine ⟨?_, ?_, ?_, ?_⟩
  · exact C3_cancellation_precedence.1 ⟨[], "", Usage.zero⟩ []
      ⟨true, "", none, false⟩ rfl
  · exact (C3_cancellation_precedence.2.1 ⟨[], "", Usage.zero⟩ [] "" .eof
      (by decide)).trans (by decide)
  · exact (C3_cancellation_precedence.2.2.1 chatPayloadDeltas ([], "") [] ""
      (by decide)).trans (by decide)
  · exact (C3_cancellation_precedence.2.2.2 chatPayloadDeltas ([], "") [] ""
      "boom" (by decide)).trans (by decide)

/-- C4: the Ollama decoder on the two scenario NDJSON lines emits exactly
the deltas Hello then space-world, returns total Hello world and the usage
3/2/5 captured from the terminal done-true object; and every clean line
trace with no done-true object ends at end of input with the accumulated
text and zero usage and no error. -/
theorem C4_ollama_stream_scenario :
    ollamaStreamLines
        ["\x7b\"response\":\"Hello\",\"done\":false\x7d",
         "\x7b\"response\":\" world\",\"done\":true,\"eval_count\":2,\"prompt_eval_count\":3\x7d"] =
      ⟨["Hello", " world"], "Hello world", ⟨3, 2, 5⟩, none⟩
    ∧ (∀ ls : List String,
      (∀ l ∈ ls, ∀ c, parseOllamaLine (strTrim l) = some c →
        c.done = false) →
      ollamaStreamLines ls =
        ⟨ollamaFragments ls, strJoin (ollamaFragments ls),
         Usage.zero, none⟩) := by
  constructor
  · decide
  · intro ls h
    unfold ollamaStreamLines ollamaStream
    rw [ollamaStreamLoop_clean]
    rw [ollamaFinalUsage_no_done _ _ h]
    simp

theorem C4_ollama_stream_scenario_witness :
    ollamaStreamLines ["\x7b\"response\":\"a\",\"done\":false\x7d"] =
      ⟨["a"], "a", Usage.zero, none⟩ := by
  have h := C4_ollama_stream_scenario.2
    ["\x7b\"response\":\"a\",\"done\":false\x7d"]
    (by
      intro l hl c hc
      fin_cases hl
      have hp : parseOllamaLine
          (strTrim "\x7b\"response\":\"a\",\"done\":false\x7d") =
          some ⟨"a", false, 0, 0⟩ := by decide
      rw [hp] at hc
      rw [← Option.some.inj hc])
  exact h.trans (by decide)

/-- C7: each of the three streaming decoders, driven by a clean line trace,
invokes the sink with exactly the in-order fragment list of the transport,
and returns as total the concatenation of those fragments; and whenever
the corresponding non-streaming Complete decoder yields a text equal to
that concatenation for an equivalent fixed server response, the Complete
text equals the streamed total. -/
theorem C7_delta_order_and_equivalence :
    (∀ ls : List String,
      (ollamaStreamLines ls).deltas = ollamaFragments ls
      ∧ (ollamaStreamLines ls).total = strJoin (ollamaFragments ls))
    ∧ (∀ ls : List String,
      (openAIChatStreamLines ls).deltas = sseFragments chatPayloadDeltas ls
      ∧ (openAIChatStreamLines ls).total =
        strJoin (sseFragments chatPayloadDeltas ls))
    ∧ (∀ ls : List String,
      (openAIResponsesStreamLines ls).deltas =
        sseFragments responsesPayloadDeltas ls
      ∧ (openAIResponsesStreamLines ls).total =
        strJoin (sseFragments responsesPayloadDeltas ls))
    ∧ (∀ (ls : List String) (body : String) (tu : String × Usage),
      ollamaComplete body = some tu →
      tu.1 = strJoin (ollamaFragments ls) →
      tu.1 = (ollamaStreamLines ls).total)
    ∧ (∀ (ls : List String) (body : String) (t : String),
      chatCompleteText body = some t →
      t = strJoin (sseFragments chatPayloadDeltas ls) →
      t = (openAIChatStreamLines ls).total)
    ∧ (∀ (ls : List String) (body : String) (t : String),
      responsesCompleteText body = some t →
      t = strJoin (sseFragments responsesPayloadDeltas ls) →
      t = (openAIResponsesStreamLines ls).total) := by
  refine ⟨?_, ?_, ?_, ?_, ?_, ?_⟩
  · intro ls
    unfold ollamaStreamLines ollamaStream
    rw [ollamaStreamLoop_clean]
    simp
  · intro ls
    unfold openAIChatStreamLines openAIChatStream
    rw [sseStreamLoop_clean]
    simp
  · intro ls
    unfold openAIResponsesStreamLines openAIResponsesStream
    rw [sseStreamLoop_clean]
    simp
  · intro ls body tu _ h2
    rw [h2]
    unfold ollamaStreamLines ollamaStream
    rw [ollamaStreamLoop_clean]
    simp
  · intro ls body t _ h2
    rw [h2]
    unfold openAIChatStreamLines openAIChatStream
    rw [sseStreamLoop_clean]
    simp
  · intro ls body t _ h2
    rw [h2]
    unfold openAIResponsesStreamLines openAIResponsesStream
    rw [sseStreamLoop_clean]
    simp

theorem C7_delta_order_and_equivalence_witness :
    ("Hello world" :
      String) = (ollamaStreamLines
        ["\x7b\"response\":\"Hello\",\"done\":false\x7d",
         "\x7b\"response\":\" world\",\"done\":true\x7d"]).total
    ∧ ("Hi" : String) = (openAIChatStreamLines
        ["data: \x7b\"choices\":[\x7b\"delta\":\x7b\"content\":\"Hi\"\x7d\x7d]\x7d"]).total
    ∧ ("Hello" : String) = (openAIResponsesStreamLines
        ["data: \x7b\"output\":[\x7b\"content\":[\x7b\"text\":\"Hel\"\x7d,\x7b\"text\":\"lo\"\x7d]\x7d]\x7d"]).total := by
  refine ⟨?_, ?_, ?_⟩
  · exact C7_delta_order_and_equivalence.2.2.2.1
      ["\x7b\"response\":\"Hello\",\"done\":false\x7d",
       "\x7b\"response\":\" world\",\"done\":true\x7d"]
      "\x7b\"response\":\"Hello world\",\"done\":true,\"prompt_eval_count\":3,\"eval_count\":2\x7d"
      ("Hello world", ⟨3, 2, 5⟩) (by decide) (by decide)
  · exact C7_delta_order_and_equivalence.2.2.2.2.1
      ["data: \x7b\"choices\":[\x7b\"delta\":\x7b\"content\":\"Hi\"\x7d\x7d]\x7d"]
      "\x7b\"choices\":[\x7b\"message\":\x7b\"content\":\"Hi\"\x7d\x7d]\x7d"
      "Hi" (by decide) (by decide)
  · exact C7_delta_order_and_equivalence.2.2.2.2.2
      ["data: \x7b\"output\":[\x7b\"content\":[\x7b\"text\":\"Hel\"\x7d,\x7b\"text\":\"lo\"\x7d]\x7d]\x7d"]
      "\x7b\"output\":[\x7b\"content\":[\x7b\"text\":\"Hello\"\x7d]\x7d]\x7d"
      "Hello" (by decide) (by decide)

/-- C8: on the chat-completions streaming path the returned usage is the
zero record for every trace whatsoever; and a line whose framed payload is
the literal DONE sentinel terminates the stream, every later iteration
being ignored. -/
theorem C8_chat_done_sentinel_and_zero_usage :
    (∀ iters : List OaIter, (openAIChatStream iters).usage = Usage.zero)
    ∧ (∀ (pre suf : List OaIter) (it : OaIter),
      it.line ≠ "" →
      strStartsWith (strTrim it.line) "data: " = true →
      strDrop (strTrim it.line) 6 = "[DONE]" →
      openAIChatStream (pre ++ it :: suf) =
        openAIChatStream (pre ++ [it])) :=
  ⟨fun iters => sseStreamLoop_usage chatPayloadDeltas iters ([], ""),
   fun pre suf it h1 h2 h3 =>
     sseStreamLoop_done_prefix chatPayloadDeltas it suf h1 h2 h3 pre ([], "")⟩

theorem C8_chat_done_sentinel_and_zero_usage_witness :
    (openAIChatStream
      [oaLineIter
        "data: \x7b\"choices\":[\x7b\"delta\":\x7b\"content\":\"Hi\"\x7d\x7d]\x7d"]).usage
      = Usage.zero
    ∧ openAIChatStream
        [oaLineIter
          "data: \x7b\"choices\":[\x7b\"delta\":\x7b\"content\":\"Hi\"\x7d\x7d]\x7d",
         oaLineIter "data: [DONE]",
         oaLineIter "data: \x7b\"choices\":[\x7b\"delta\":\x7b\"content\":\"IGNORED\"\x7d\x7d]\x7d"] =
      openAIChatStream
        [oaLineIter
          "data: \x7b\"choices\":[\x7b\"delta\":\x7b\"content\":\"Hi\"\x7d\x7d]\x7d",
         oaLineIter "data: [DONE]"] :=
  ⟨C8_chat_done_sentinel_and_zero_usage.1
      [oaLineIter
        "data: \x7b\"choices\":[\x7b\"delta\":\x7b\"content\":\"Hi\"\x7d\x7d]\x7d"],
   C8_chat_done_sentinel_and_zero_usage.2
      [oaLineIter
        "data: \x7b\"choices\":[\x7b\"delta\":\x7b\"content\":\"Hi\"\x7d\x7d]\x7d"]
      [oaLineIter "data: \x7b\"choices\":[\x7b\"delta\":\x7b\"content\":\"IGNORED\"\x7d\x7d]\x7d"]
      (oaLineIter "data: [DONE]") (by decide) (by decide) (by decide)⟩

/-- Go `strings.TrimRight(s, "/")`: drop every trailing slash. -/
def strTrimRightSlash (s : String) : String :=
  ⟨(s.data.reverse.dropWhile (fun c => c = '/')).reverse⟩

/-- A constructed backend instance: the two provider constructors that
exist in the codebase, with the state their constructors store. -/
inductive BuiltProvider where
  | openAIProvider (apiKey baseURL : String)
  | ollamaProvider (baseURL : String)
deriving DecidableEq, Repr

/-- Go `NewOpenAIProvider`: default the base URL, strip trailing slashes. -/
def NewOpenAIProvider (apiKey baseURL : String) : BuiltProvider :=
  .openAIProvider apiKey
    (strTrimRightSlash
      (if baseURL = "" then "https://api.openai.com/v1" else baseURL))

/-- Go `NewOllamaProvider`: the complete Ollama-native constructor that
exists in the codebase (its Complete and Stream behavior is modelled by
`ollamaComplete` and `ollamaStream`), defaulting to the local endpoint. -/
def NewOllamaProvider (baseURL : String) : BuiltProvider :=
  .ollamaProvider
    (strTrimRightSlash
      (if baseURL = "" then "http://localhost:11434" else baseURL))

/-- Factory error: the single not-implemented constructor carrying the
provider name, from the Go format string. -/
inductive BuildErr where
  | notImplemented (provider : String)
deriving DecidableEq, Repr

/-- Go `BuildProvider` (and the identical `buildProvider` in the main
package): a switch on the resolved provider name with a single openai case
and a default error. -/
def BuildProvider (res : ProviderResolution) :
    Except BuildErr BuiltProvider :=
  match res.providerName with
  | "openai" => .ok (NewOpenAIProvider res.apiKey res.baseURL)
  | _ => .error (.notImplemented res.providerName)

/-- C10: the backend factory errors for every resolved provider name other
than exactly openai, in particular for ollama even though the Ollama-native
constructor exists in the codebase; every successful construction is the
OpenAI variant built from the resolved credential and base URL; so a
resolution to any non-openai provider fails at the factory, before any
network call. -/
theorem C10_factory_openai_only :
    (∀ res : ProviderResolution, res.providerName ≠ "openai" →
      BuildProvider res = .error (.notImplemented res.providerName))
    ∧ (∀ (res : ProviderResolution) (b : BuiltProvider),
      BuildProvider res = .ok b →
      res.providerName = "openai" ∧ b = NewOpenAIProvider res.apiKey res.baseURL)
    ∧ BuildProvider ⟨"ollama", "llama3.1:8b", "dummy", "", "NURO_API_KEY"⟩ =
      .error (.notImplemented "ollama")
    ∧ NewOllamaProvider "" = .ollamaProvider "http://localhost:11434" := by
  refine ⟨?_, ?_, by decide, by decide⟩
  · intro res hne
    unfold BuildProvider
    split
    · next heq => exact absurd heq hne
    · rfl
  · intro res b h
    unfold BuildProvider at h
    split at h
    · next heq => exact ⟨heq, (Except.ok.inj h).symm⟩
    · exact Except.noConfusion h

theorem C10_factory_openai_only_witness :
    BuildProvider ⟨"mistral", "mixtral-8x7b", "mk", "", "MISTRAL_API_KEY"⟩ =
      .error (.notImplemented "mistral")
    ∧ (("openai" : String) = "openai"
      ∧ BuiltProvider.openAIProvider "sk" "https://api.openai.com/v1" =
          NewOpenAIProvider "sk" "") :=
  ⟨C10_factory_openai_only.1
      ⟨"mistral", "mixtral-8x7b", "mk", "", "MISTRAL_API_KEY"⟩ (by decide),
   C10_factory_openai_only.2.1
      ⟨"openai", "gpt-4o-mini", "sk", "", "OPENAI_API_KEY"⟩
      (BuiltProvider.openAIProvider "sk" "https://api.openai.com/v1")
      (by decide)⟩

end Nuro
